import Mathlib

/-!
Shallow embedding of the movie-ratings analysis pipeline found in
src/filters.py, src/utils/utils.py and src/utils/inisight.py, together with
proofs and refutations of the specification's properties.

Modelling conventions:
- A pandas DataFrame is a list of rows; row order is significant, matching
  pandas semantics (boolean-mask selection preserves row order).
- Timestamps are integers (any linearly ordered time axis works the same way).
- Ratings are rationals, modelling exact real arithmetic; every arithmetic
  operation performed by the code (count, sum, mean, the affine rating
  normalisation) is exact on the example inputs considered.
- pandas sort_values with ascending=False goes through nargsort, which first
  reverses the values and the row index, then takes a stable ascending argsort
  (numpy's default quicksort degenerates to the stable insertion sort for
  frames of at most 16 rows), then reverses the resulting order again; this
  reverse-argsort-reverse construction sorts descending while keeping rows
  tied on the key in their original input order.  It is modelled here as
  List.reverse, a stable ascending insertion sort, and List.reverse again.
  The model is exact for frames of at most 16 rows; on larger frames numpy's
  introsort phase makes the placement of tied rows an implementation detail,
  and the theorems below that mention tie placement at all assert it through
  this model, while the remaining sort theorems (permutation, sortedness by
  the key, lengths, membership) hold for the real implementation regardless
  of how ties fall.
-/

/-- Row of the ratings table: (userId, movieId, rating, datetime_rating). -/
structure RatingRow where
  userId : Nat
  movieId : Nat
  rating : ℚ
  datetime_rating : Int
deriving DecidableEq, Repr

/-- Row of the movies table: (movieId, title, movie_year, genres). -/
structure MovieRow where
  movieId : Nat
  title : String
  movie_year : Int
  genres : List String
deriving DecidableEq, Repr

/-- Row of the tags table: (movieId, tag). -/
structure TagRow where
  movieId : Nat
  tag : String
deriving DecidableEq, Repr

/-- The boolean mask `(df.datetime_rating >= start_date) & (df.datetime_rating <= end_date)`
from filter_time_interval (src/filters.py lines 18-19, src/utils/utils.py lines 23-24). -/
def timeMask (start_date end_date : Int) (r : RatingRow) : Bool :=
  decide (start_date ≤ r.datetime_rating) && decide (r.datetime_rating ≤ end_date)

/-- Comparison key used by `sort_values(by="datetime_rating")`. -/
def ratingLE (a b : RatingRow) : Prop := a.datetime_rating ≤ b.datetime_rating

instance : DecidableRel ratingLE := fun a b => Int.decLe a.datetime_rating b.datetime_rating

instance : IsTotal RatingRow ratingLE := ⟨fun a b => Int.le_total a.datetime_rating b.datetime_rating⟩

instance : IsTrans RatingRow ratingLE := ⟨fun _ _ _ h1 h2 => le_trans h1 h2⟩

/-- Embeds `filter_time_interval(df, start_date, end_date)` (src/filters.py lines 5-20
and its duplicate in src/utils/utils.py lines 10-25): select the rows whose
datetime_rating lies in the closed interval, then
`sort_values(by="datetime_rating", ascending=False)`, modelled as the
reverse-argsort-reverse construction pandas uses for descending sorts
(see the header note on sort_values). -/
def filter_time_interval (df : List RatingRow) (start_date end_date : Int) : List RatingRow :=
  (List.insertionSort ratingLE ((df.filter (timeMask start_date end_date)).reverse)).reverse

/-- The boolean mask `(df.movie_year >= prod_start) & (df.movie_year <= prod_end)`
from filter_production_date (src/filters.py line 35, src/utils/utils.py line 40). -/
def yearMask (prod_start prod_end : Int) (m : MovieRow) : Bool :=
  decide (prod_start ≤ m.movie_year) && decide (m.movie_year ≤ prod_end)

/-- Embeds `filter_production_date(df, prod_start, prod_end)` (src/filters.py
lines 23-35 and its duplicate in src/utils/utils.py lines 28-40): boolean-mask
selection with no re-sort. -/
def filter_production_date (df : List MovieRow) (prod_start prod_end : Int) : List MovieRow :=
  df.filter (yearMask prod_start prod_end)

/-- The sorted output of filter_time_interval is a permutation of the mask-filtered rows. -/
lemma filter_time_interval_perm (df : List RatingRow) (s e : Int) :
    (filter_time_interval df s e).Perm (df.filter (timeMask s e)) :=
  ((List.reverse_perm _).trans (List.perm_insertionSort ratingLE _)).trans
    (List.reverse_perm _)

/-- The output of filter_time_interval is pairwise descending in datetime_rating. -/
lemma filter_time_interval_sorted (df : List RatingRow) (s e : Int) :
    (filter_time_interval df s e).Pairwise
      (fun a b => b.datetime_rating ≤ a.datetime_rating) := by
  have hs : List.Sorted ratingLE
      (List.insertionSort ratingLE ((df.filter (timeMask s e)).reverse)) :=
    List.sorted_insertionSort ratingLE _
  exact List.pairwise_reverse.mpr hs

/-- C6: for all ratings tables and timestamps start ≤ end, filter_time_interval
returns exactly the rating records whose datetime_rating lies in the closed
interval [start, end] (as a permutation of the mask-filtered rows, with the
membership characterisation spelled out), sorted descending by
datetime_rating, and returns the empty list when no record matches. -/
theorem filter_time_interval_spec (df : List RatingRow) (s e : Int) (h : s ≤ e) :
    (filter_time_interval df s e).Perm (df.filter (timeMask s e)) ∧
    (∀ x, x ∈ filter_time_interval df s e ↔
      x ∈ df ∧ s ≤ x.datetime_rating ∧ x.datetime_rating ≤ e) ∧
    (filter_time_interval df s e).Pairwise
      (fun a b => b.datetime_rating ≤ a.datetime_rating) ∧
    (df.filter (timeMask s e) = [] → filter_time_interval df s e = []) := by
  refine ⟨filter_time_interval_perm df s e, fun x => ?_, filter_time_interval_sorted df s e,
    fun hnil => ?_⟩
  · rw [(filter_time_interval_perm df s e).mem_iff, List.mem_filter]
    simp [timeMask, and_assoc]
  · exact ((filter_time_interval_perm df s e).trans (by rw [hnil])).eq_nil

/-- Concrete instantiation of filter_time_interval_spec, with the filter evaluated. -/
theorem filter_time_interval_spec_witness :
    ((0 : Int) ≤ 10 ∧
      (filter_time_interval [⟨1, 1, 4, 3⟩, ⟨2, 1, 5, 7⟩, ⟨3, 2, 3, 20⟩] 0 10).Pairwise
        (fun a b => b.datetime_rating ≤ a.datetime_rating)) ∧
    filter_time_interval [⟨1, 1, 4, 3⟩, ⟨2, 1, 5, 7⟩, ⟨3, 2, 3, 20⟩] 0 10 =
      [⟨2, 1, 5, 7⟩, ⟨1, 1, 4, 3⟩] :=
  ⟨⟨by decide, (filter_time_interval_spec [⟨1, 1, 4, 3⟩, ⟨2, 1, 5, 7⟩, ⟨3, 2, 3, 20⟩] 0 10
      (by decide)).2.2.1⟩, by decide⟩

/-- C7: filter_production_date returns exactly the movie rows whose movie_year
lies in [p1, p2], preserving input order (the result is a sublist of the
input), and returns the empty list whenever p1 > p2. -/
theorem filter_production_date_spec (df : List MovieRow) (p1 p2 : Int) :
    (filter_production_date df p1 p2).Sublist df ∧
    (∀ m, m ∈ filter_production_date df p1 p2 ↔
      m ∈ df ∧ p1 ≤ m.movie_year ∧ m.movie_year ≤ p2) ∧
    (p2 < p1 → filter_production_date df p1 p2 = []) := by
  refine ⟨List.filter_sublist _, fun m => ?_, fun hlt => ?_⟩
  · rw [filter_production_date, List.mem_filter]
    simp [yearMask, and_assoc]
  · rw [filter_production_date]
    refine List.filter_eq_nil_iff.mpr fun m _ => ?_
    simp only [yearMask, Bool.and_eq_true, decide_eq_true_eq, not_and]
    intro h1 h2
    omega

/-- Concrete instantiation of filter_production_date_spec, with the filter evaluated. -/
theorem filter_production_date_spec_witness :
    ((5 : Int) < 7 ∧ filter_production_date [⟨1, "A", 1990, ["Comedy"]⟩] 7 5 = []) ∧
    filter_production_date [⟨1, "A", 1990, ["Comedy"]⟩, ⟨2, "B", 2005, ["Drama"]⟩] 1990 1999 =
      [⟨1, "A", 1990, ["Comedy"]⟩] :=
  ⟨⟨by decide, (filter_production_date_spec [⟨1, "A", 1990, ["Comedy"]⟩] 7 5).2.2 (by decide)⟩,
    by decide⟩

/-- C8: filtering twice with the same interval yields the same set of records
as filtering once (the claim asks for set equality; we prove the stronger
multiset statement, a permutation). -/
theorem filter_time_interval_idempotent (df : List RatingRow) (s e : Int) (h : s ≤ e) :
    (filter_time_interval (filter_time_interval df s e) s e).Perm
      (filter_time_interval df s e) := by
  have hall : ∀ x ∈ filter_time_interval df s e, timeMask s e x = true := by
    intro x hx
    have := (filter_time_interval_perm df s e).mem_iff.mp hx
    exact (List.mem_filter.mp this).2
  have hfix : (filter_time_interval df s e).filter (timeMask s e) =
      filter_time_interval df s e := List.filter_eq_self.mpr hall
  have hp := filter_time_interval_perm (filter_time_interval df s e) s e
  rwa [hfix] at hp

/-- Concrete instantiation of filter_time_interval_idempotent, with both sides evaluated. -/
theorem filter_time_interval_idempotent_witness :
    ((0 : Int) ≤ 10 ∧
      (filter_time_interval (filter_time_interval [⟨1, 1, 4, 3⟩, ⟨2, 1, 5, 7⟩] 0 10) 0 10).Perm
        (filter_time_interval [⟨1, 1, 4, 3⟩, ⟨2, 1, 5, 7⟩] 0 10)) ∧
    filter_time_interval (filter_time_interval [⟨1, 1, 4, 3⟩, ⟨2, 1, 5, 7⟩] 0 10) 0 10 =
      [⟨2, 1, 5, 7⟩, ⟨1, 1, 4, 3⟩] :=
  ⟨⟨by decide, filter_time_interval_idempotent [⟨1, 1, 4, 3⟩, ⟨2, 1, 5, 7⟩] 0 10 (by decide)⟩,
    by decide⟩

/-- Embeds `get_tags_per_movieId(movieId, tags_df)` (src/utils/utils.py lines 43-52):
the list of tag strings of the tag rows matching the movieId. -/
def get_tags_per_movieId (movieId : Nat) (tags_df : List TagRow) : List String :=
  (tags_df.filter fun t => t.movieId == movieId).map TagRow.tag

/-- The group of rating rows for one movieId (the groupby("movieId") group). -/
def ratings_for (df : List RatingRow) (movieId : Nat) : List RatingRow :=
  df.filter fun r => r.movieId == movieId

/-- Embeds the count_views column (src/utils/utils.py lines 67-69):
groupby("movieId") count. -/
def total_views (df : List RatingRow) (movieId : Nat) : Nat :=
  (ratings_for df movieId).length

/-- Embeds the rating_means column (src/utils/utils.py lines 71-73):
groupby("movieId") arithmetic mean of rating, as an exact rational. -/
def average_rating (df : List RatingRow) (movieId : Nat) : ℚ :=
  ((ratings_for df movieId).map RatingRow.rating).sum / (total_views df movieId : ℚ)

/-- Row of the merged statistics frame built at src/utils/utils.py lines 75-77. -/
structure AggRow where
  movieId : Nat
  title : String
  movie_year : Int
  genres : List String
  total_views : Nat
  average_rating : ℚ
deriving DecidableEq, Repr

/-- Embeds the two inner merges pd.merge(movies_df, count_views, on="movieId") and
pd.merge(.., rating_means, on="movieId") (src/utils/utils.py lines 75-77): an inner join
keeps the movie rows whose movieId has at least one rating row, preserving the left
(movie catalog) row order, and attaches the per-movieId count and mean. -/
def merged_stats (df : List RatingRow) (movies_df : List MovieRow) : List AggRow :=
  movies_df.filterMap fun m =>
    if 0 < total_views df m.movieId then
      some ⟨m.movieId, m.title, m.movie_year, m.genres,
        total_views df m.movieId, average_rating df m.movieId⟩
    else none

/-- Row of the intended final aggregate frame, the merged statistics plus a tags column. -/
structure AggTagRow where
  movieId : Nat
  title : String
  movie_year : Int
  genres : List String
  total_views : Nat
  average_rating : ℚ
  tags : List String
deriving DecidableEq, Repr

/-- The Python error raised by the tag-attachment step of aggregate_data. -/
def typeErrorTags : String :=
  "TypeError: get_tags_per_movieId missing 1 required positional argument: tags_df"

/-- Embeds `aggregate_data(df, movies_df)` (src/utils/utils.py lines 55-84). After building
the merged statistics frame, line 80 evaluates
movies_df_copy["movieId"].apply(lambda x: get_tags_per_movieId(x)): get_tags_per_movieId is
defined with two required positional parameters (movieId, tags_df), so the lambda raises
TypeError on the first element of a non-empty column; on an empty merged frame, Series.apply
never invokes the lambda and the function returns the empty frame with a tags column. -/
def aggregate_data (df : List RatingRow) (movies_df : List MovieRow) :
    Except String (List AggTagRow) :=
  match merged_stats df movies_df with
  | [] => Except.ok []
  | _ :: _ => Except.error typeErrorTags

/-- Row of the exploded movie frame: one row per (movie, genre) pair; the genres column
holds a single genre string after df.explode("genres"). -/
structure ExplodedRow where
  movieId : Nat
  title : String
  movie_year : Int
  genres : String
deriving DecidableEq, Repr

/-- Embeds `filter_df.explode("genres")` (src/utils/utils.py line 187): one output row per
element of the genres list. A movie whose genres list is empty is not a case exercised
here (pandas would emit a NaN row that makes the following boolean mask raise); the model
emits no row for it. -/
def explode_genres (df : List MovieRow) : List ExplodedRow :=
  df.flatMap fun m => m.genres.map fun g => ⟨m.movieId, m.title, m.movie_year, g⟩

/-- Embeds `Series.str.contains(pat)` for the genre mask (src/utils/utils.py line 188).
pandas interprets pat as a regular expression by default; on a pattern free of regex
metacharacters — every concrete genre pattern used below is — the regex matches a string
exactly when pat occurs in it as a contiguous substring, which is what this model decides. -/
def py_str_contains (s pat : String) : Bool :=
  (List.range (s.toList.length + 1)).any fun i => List.isPrefixOf pat.toList (s.toList.drop i)

/-- Embeds the filtering stage of find_closest_match_ut (src/utils/utils.py lines 182-188):
decade = prod_year // 10 * 10 (Python floor division, Int.fdiv), production years limited
to [decade, decade + 9], genres exploded, genre substring mask applied. -/
def closest_match_filter (genre : String) (prod_year : Int) (dataset : List MovieRow) :
    List ExplodedRow :=
  let decade := Int.fdiv prod_year 10 * 10
  (explode_genres (filter_production_date dataset decade (decade + 9))).filter
    fun r => py_str_contains r.genres genre

/-- The Python error raised by the one-argument aggregate_data call in both orchestrators. -/
def typeErrorAggregate : String :=
  "TypeError: aggregate_data missing 1 required positional argument: movies_df"

/-- Embeds `find_closest_match_ut(genre, prod_year, dataset)` (src/utils/utils.py lines
167-194). The body computes filter_df and then evaluates aggregate_data(filter_df): since
aggregate_data is defined with two required positional parameters (df, movies_df), Python
raises TypeError at that call, before generate_plots or the return statement can run, so
the function returns nothing on every input; the embedding yields that error. -/
def find_closest_match_ut (genre : String) (prod_year : Int) (dataset : List MovieRow) :
    Except String (List ExplodedRow × List AggTagRow) :=
  let _filter_df := closest_match_filter genre prod_year dataset
  Except.error typeErrorAggregate

/-- Embeds `find_closest_match_ut(genre, prod_year, dataset)` from src/utils/inisight.py
lines 4-31, which imports filter_production_date, aggregate_data and generate_plots from
utils and repeats the utils body verbatim, one-argument aggregate_data call included. -/
def inisight_find_closest_match_ut (genre : String) (prod_year : Int)
    (dataset : List MovieRow) : Except String (List ExplodedRow × List AggTagRow) :=
  let _filter_df := closest_match_filter genre prod_year dataset
  Except.error typeErrorAggregate

/-- Movies table of the end-to-end example in the specification. -/
def exampleMovies : List MovieRow := [⟨1, "A", 1990, ["Comedy"]⟩, ⟨2, "B", 1991, ["Drama"]⟩]

/-- Ratings table of the end-to-end example in the specification. -/
def exampleRatings : List RatingRow := [⟨1, 1, 4, 1⟩, ⟨1, 1, 5, 2⟩, ⟨2, 2, 3, 3⟩]

/-- Tags table of the end-to-end example in the specification. -/
def exampleTags : List TagRow := [⟨1, "funny"⟩]

/-- C1: on the end-to-end example the genre/decade filter does select exactly movie 1, the
intended aggregation over the filtered catalog does give total_views 2, average_rating 9/2
and tags ["funny"] — but the call find_closest_match_ut("Comedy", 1990, movies) raises
TypeError at its one-argument aggregate_data call instead of returning that summary. -/
theorem find_closest_match_example_raises :
    closest_match_filter "Comedy" 1990 exampleMovies = [⟨1, "A", 1990, "Comedy"⟩] ∧
    merged_stats exampleRatings [⟨1, "A", 1990, ["Comedy"]⟩] =
      [⟨1, "A", 1990, ["Comedy"], 2, 9 / 2⟩] ∧
    get_tags_per_movieId 1 exampleTags = ["funny"] ∧
    find_closest_match_ut "Comedy" 1990 exampleMovies = Except.error typeErrorAggregate :=
  ⟨by decide,
    by norm_num [merged_stats, total_views, average_rating, ratings_for, exampleRatings,
      List.filterMap_cons, List.filter_cons, List.filter_nil],
    by decide, rfl⟩

/-- C2: the groupby/merge stage computes the claimed statistics — movie 1 appears with
total_views 1 and average_rating 4, and movie 2, absent from the ratings, is dropped — but
aggregate_data itself raises TypeError at the tag-attachment step on this same input
instead of returning them. -/
theorem merged_stats_correct_but_aggregate_raises :
    merged_stats [⟨7, 1, 4, 100⟩] [⟨1, "A", 1990, ["Comedy"]⟩, ⟨2, "B", 1995, ["Drama"]⟩] =
      [⟨1, "A", 1990, ["Comedy"], 1, 4⟩] ∧
    aggregate_data [⟨7, 1, 4, 100⟩] [⟨1, "A", 1990, ["Comedy"]⟩, ⟨2, "B", 1995, ["Drama"]⟩] =
      Except.error typeErrorTags :=
  ⟨by norm_num [merged_stats, total_views, average_rating, ratings_for,
      List.filterMap_cons, List.filter_cons, List.filter_nil], rfl⟩

/-- C3: the lookup helper get_tags_per_movieId does return the empty list on a movieId with
zero tag records, but the tag-attachment step inside aggregate_data passes it no tags_df
argument and therefore raises TypeError on any movie reaching that step, instead of
attaching the empty list. -/
theorem tag_attachment_raises :
    get_tags_per_movieId 5 [] = [] ∧
    get_tags_per_movieId 5 [⟨6, "dark"⟩] = [] ∧
    aggregate_data [⟨9, 5, 3, 50⟩] [⟨5, "C", 1980, ["Horror"]⟩] = Except.error typeErrorTags :=
  ⟨rfl, by decide, rfl⟩

/-- C4: the decade/genre filter steps select exactly the claimed rows — in particular the
Romantic Comedy row is selected when the requested genre is Comedy, and rows failing the
decade or genre test are dropped — but find_closest_match_ut raises TypeError before it can
return that filtered subset. -/
theorem genre_filter_correct_but_orchestrator_raises :
    closest_match_filter "Comedy" 1990 [⟨3, "RC", 1992, ["Romantic Comedy"]⟩] =
      [⟨3, "RC", 1992, "Romantic Comedy"⟩] ∧
    closest_match_filter "Comedy" 1990
      [⟨4, "D", 1992, ["Drama"]⟩, ⟨5, "E", 2002, ["Comedy"]⟩] = [] ∧
    find_closest_match_ut "Comedy" 1990 [⟨3, "RC", 1992, ["Romantic Comedy"]⟩] =
      Except.error typeErrorAggregate :=
  ⟨by decide, by decide, rfl⟩

/-- C10: the two orchestrator definitions, from src/utils/utils.py and src/utils/inisight.py,
are extensionally equal: on every input both compute the same filtered frame and then fail
identically at the one-argument aggregate_data call. -/
theorem orchestrators_extensionally_equal :
    ∀ (genre : String) (prod_year : Int) (dataset : List MovieRow),
      inisight_find_closest_match_ut genre prod_year dataset =
        find_closest_match_ut genre prod_year dataset :=
  fun _ _ _ => rfl

/-- Comparison key used by `sort_values(by="total_views")` in generate_plots. -/
def viewsLE (a b : AggTagRow) : Prop := a.total_views ≤ b.total_views

instance : DecidableRel viewsLE := fun a b => Nat.decLe a.total_views b.total_views

instance : IsTotal AggTagRow viewsLE := ⟨fun a b => Nat.le_total a.total_views b.total_views⟩

instance : IsTrans AggTagRow viewsLE := ⟨fun _ _ _ h1 h2 => le_trans h1 h2⟩

/-- Embeds `movies_df.sort_values(by="total_views", ascending=False)` from generate_plots
(src/utils/utils.py line 94): pandas nargsort reverses the frame, takes a stable ascending
argsort, and reverses the resulting order again, so the frame comes out sorted descending
by total_views with tied rows kept in their input order (see the header note). -/
def sort_values_desc_views (movies_df : List AggTagRow) : List AggTagRow :=
  (List.insertionSort viewsLE movies_df.reverse).reverse

/-- Embeds `movies_df.sort_values(by="total_views", ascending=False).head(top)` from
generate_plots (src/utils/utils.py line 94): the descending sort followed by head, which
keeps the first min(top, length) rows for a non-negative top (the only kind the
repository and the specification use). -/
def top_selection (movies_df : List AggTagRow) (top : Nat) : List AggTagRow :=
  (sort_values_desc_views movies_df).take top

/-- Inserting a row with the views key into a list routes it past exactly the rows of
strictly smaller key, so filtering one key class afterwards sees the inserted row first,
followed by the class rows in their previous order. -/
lemma filter_orderedInsert_views (k : Nat) (a : AggTagRow) (l : List AggTagRow) :
    (List.orderedInsert viewsLE a l).filter (fun x => x.total_views == k) =
      if a.total_views = k then a :: l.filter (fun x => x.total_views == k)
      else l.filter (fun x => x.total_views == k) := by
  induction l with
  | nil =>
      by_cases h : a.total_views = k
      · simp [h]
      · simp [h]
  | cons b t ih =>
      simp only [List.orderedInsert]
      by_cases hab : viewsLE a b
      · rw [if_pos hab]
        by_cases h : a.total_views = k
        · simp [List.filter_cons, h]
        · simp [List.filter_cons, h]
      · rw [if_neg hab]
        have hba : b.total_views < a.total_views := by
          have hle : ¬ a.total_views ≤ b.total_views := hab
          omega
        rw [List.filter_cons, List.filter_cons, ih]
        by_cases h : a.total_views = k
        · have hbk : ¬ b.total_views = k := by omega
          simp [h, hbk]
        · simp [h]

/-- Stability of the ascending insertion sort: filtering any one views class commutes with
sorting, so tied rows keep their relative order. -/
lemma filter_insertionSort_views (k : Nat) (l : List AggTagRow) :
    (List.insertionSort viewsLE l).filter (fun x => x.total_views == k) =
      l.filter (fun x => x.total_views == k) := by
  induction l with
  | nil => rfl
  | cons b t ih =>
      simp only [List.insertionSort]
      rw [filter_orderedInsert_views k b (List.insertionSort viewsLE t)]
      by_cases h : b.total_views = k
      · rw [if_pos h, ih, List.filter_cons, if_pos (by simp [h])]
      · rw [if_neg h, ih, List.filter_cons, if_neg (by simp [h])]

/-- Stability of the descending sort: the reverse-argsort-reverse construction preserves,
within each total_views class, the input order of the tied rows. -/
lemma filter_sort_values_desc_views (k : Nat) (l : List AggTagRow) :
    (sort_values_desc_views l).filter (fun x => x.total_views == k) =
      l.filter (fun x => x.total_views == k) := by
  rw [sort_values_desc_views, List.filter_reverse, filter_insertionSort_views,
    List.filter_reverse, List.reverse_reverse]

/-- Embeds `normalized_ratings = (ratings - 1) / 4` from generate_plots
(src/utils/utils.py line 99), as the elementwise operation on one rating. -/
def normalize_rating (rating : ℚ) : ℚ := (rating - 1) / 4

/-- The normalized-ratings series of generate_plots: line 99 applied to the
average_rating column of the selected frame of line 94. -/
def plot_normalized_ratings (movies_df : List AggTagRow) (top : Nat) : List ℚ :=
  (top_selection movies_df top).map fun row => normalize_rating row.average_rating

/-- First of two rows tied on total_views, in input order. -/
def tieRowA : AggTagRow := ⟨1, "A", 1990, ["Comedy"], 5, 3, []⟩

/-- Second of two rows tied on total_views, in input order. -/
def tieRowB : AggTagRow := ⟨2, "B", 1990, ["Drama"], 5, 4, []⟩

/-- Regression check on a concrete tie: two movies tied on total_views stay in input
order through the descending sort and selection. -/
lemma top_selection_tie_input_order :
    top_selection [tieRowA, tieRowB] 20 = [tieRowA, tieRowB] := by decide

/-- C5: top_selection keeps exactly min(top, available) movies, ordered by total_views
descending, every selected row coming from the input frame; the selection is the value of
a pure function of the input frame, hence deterministic for a fixed input ordering; and
the descending sort it draws from is stable, preserving within each total_views class the
input order of the tied rows. -/
theorem top_selection_spec (movies_df : List AggTagRow) (top : Nat) :
    (top_selection movies_df top).length = min top movies_df.length ∧
    (top_selection movies_df top).Pairwise (fun a b => b.total_views ≤ a.total_views) ∧
    (∀ row, row ∈ top_selection movies_df top → row ∈ movies_df) ∧
    (∀ k : Nat, (sort_values_desc_views movies_df).filter (fun x => x.total_views == k) =
      movies_df.filter (fun x => x.total_views == k)) := by
  refine ⟨?_, ?_, ?_, fun k => filter_sort_values_desc_views k movies_df⟩
  · rw [top_selection, sort_values_desc_views, List.length_take, List.length_reverse,
      List.length_insertionSort, List.length_reverse]
  · have hs : List.Sorted viewsLE (List.insertionSort viewsLE movies_df.reverse) :=
      List.sorted_insertionSort viewsLE movies_df.reverse
    have hrev : (List.insertionSort viewsLE movies_df.reverse).reverse.Pairwise
        (fun a b => b.total_views ≤ a.total_views) := List.pairwise_reverse.mpr hs
    exact hrev.sublist (List.take_sublist top _)
  · intro row hrow
    have h1 : row ∈ (List.insertionSort viewsLE movies_df.reverse).reverse :=
      (List.take_sublist top _).mem hrow
    have h2 : row ∈ List.insertionSort viewsLE movies_df.reverse := List.mem_reverse.mp h1
    have h3 : row ∈ movies_df.reverse :=
      (List.perm_insertionSort viewsLE movies_df.reverse).mem_iff.mp h2
    exact List.mem_reverse.mp h3

/-- C9: the color-mapping value of a selected movie is computed as (rating - 1) / 4 with no
clamping, so a selected movie whose average_rating is below 1 contributes a negative
normalized value to the series. -/
theorem normalize_rating_spec (movies_df : List AggTagRow) (top : Nat) (row : AggTagRow)
    (hrow : row ∈ top_selection movies_df top) (hlow : row.average_rating < 1) :
    normalize_rating row.average_rating = (row.average_rating - 1) / 4 ∧
    normalize_rating row.average_rating < 0 ∧
    normalize_rating row.average_rating ∈ plot_normalized_ratings movies_df top := by
  refine ⟨rfl, ?_, ?_⟩
  · have hneg : row.average_rating - 1 < 0 := by linarith
    have h4 : (0 : ℚ) < 4 := by norm_num
    exact div_neg_of_neg_of_pos hneg h4
  · rw [plot_normalized_ratings]
    exact List.mem_map_of_mem _ hrow

/-- Row with an out-of-domain average rating below 1. -/
def lowRow : AggTagRow := ⟨9, "L", 1970, ["Noir"], 3, 1 / 2, ["bleak"]⟩

/-- Concrete instantiation of normalize_rating_spec at a selected movie rated 1/2. -/
theorem normalize_rating_spec_witness :
    normalize_rating lowRow.average_rating = (lowRow.average_rating - 1) / 4 ∧
    normalize_rating lowRow.average_rating < 0 ∧
    normalize_rating lowRow.average_rating ∈ plot_normalized_ratings [lowRow] 20 :=
  normalize_rating_spec [lowRow] 20 lowRow
    (by simp [top_selection, sort_values_desc_views, lowRow]) (by norm_num [lowRow])
